import Mathlib

/-
Shallow embedding of the geometry-card layer of pyne.simplesim.cards
(file src/pyne/simplesim/cards.py), covering the classes ICard, ISurface,
IAxisSurface, AxisCylinder, Parallelepiped, IRegion, IRegionBool,
RegionAnd, RegionOr, RegionLeaf, CellVoid and Cell, as far as the
verified properties need them.

Modelling conventions:
- Numbers are rationals; Python floats are used by the source only for
  ordinary arithmetic and comparisons on user-supplied values.
- A Python method that mutates `self` and may raise is embedded as a
  function returning `State × Option PyErr`: the first component is the
  state of the object after the call (unchanged when the method raised
  before writing, exactly as in the source), the second the exception
  raised, if any.
- Constructors are embedded as functions into `Except PyErr State`:
  a raised exception means no object is produced.
- Exceptions are identified by their raise site; the source raises
  builtin Python exceptions (ValueError, TypeError, StandardError,
  NameError) whose messages differ per site.
-/

set_option autoImplicit false

namespace PyneCards

/-- Three-component vector handed to shift and stretch, in x, y, z order
(the source indexes it as vector[0], vector[1], vector[2]). -/
structure Vec3 where
  x : ℚ
  y : ℚ
  z : ℚ
deriving DecidableEq, Repr

/-- The lower-cased cartesian axis stored by IAxisSurface.cartesian_axis
after its setter has validated the user string. -/
inductive Axis where
  | x
  | y
  | z
deriving DecidableEq, Repr

/-- Exceptions raised by the embedded code, one constructor per raise
site of the source. -/
inductive PyErr where
  /-- StandardError in the ICard.name setter: the card is unique, its
  name is read-only. -/
  | uniqueNameReadOnly
  /-- ValueError in the ICard.name setter: the name cannot be empty. -/
  | nameEmpty
  /-- ValueError at the end of ISurface.__init__: the surface was set to
  be reflecting and white at once. -/
  | reflectingAndWhite
  /-- ValueError in AxisCylinder.shift: shift perpendicular to the
  cylinder axis. -/
  | cylinderShiftOffAxis
  /-- ValueError in AxisCylinder.stretch: the two stretch components
  perpendicular to the axis differ. -/
  | cylinderStretchNonUniform
  /-- ValueError in the AxisCylinder.radius setter: the radius must be
  positive. -/
  | radiusNotPositive
  /-- ValueError in the Parallelepiped xlims/ylims/zlims setter for the
  given axis: the min bound exceeds the max bound. -/
  | limsOutOfOrder (ax : Axis)
  /-- ValueError in the Cell.material setter: the material name is
  empty. -/
  | materialNameEmpty
  /-- NameError in the Cell.density_units setter: its guard reads the
  name density_units, which is unbound inside the setter body. -/
  | densityUnitsUnboundName
  /-- TypeError from isinstance in IRegion.walk: the second argument of
  isinstance is a bound method, not a class. -/
  | isinstanceNotClass
deriving DecidableEq, Repr

/-- Python truthiness of an optional boolean attribute (None is falsy). -/
def truthy : Option Bool → Bool
  | some b => b
  | none => false

/-! ### ICard: the naming contract (cards.py lines 44-87) -/

/-- The name-related state every card carries: the _unique flag fixed at
construction and the _name attribute. -/
structure ICardState where
  unique : Bool
  name : String
deriving DecidableEq, Repr

/-- The ICard.name setter: a unique card raises StandardError, an empty
name raises ValueError, otherwise _name is assigned. -/
def ICard.setName (c : ICardState) (value : String) : ICardState × Option PyErr :=
  if c.unique then (c, some PyErr.uniqueNameReadOnly)
  else if value = "" then (c, some PyErr.nameEmpty)
  else ({ c with name := value }, none)

/-- ICard.__init__: with unique=True the name is stored directly into
_name; otherwise it goes through the name setter. The "" passed to the
setter as prior state stands for the not-yet-set _name attribute; it is
never observable because on setter failure no object is produced. -/
def ICard.init (name : String) (unique : Bool) : Except PyErr ICardState :=
  if unique then Except.ok { unique := true, name := name }
  else
    match ICard.setName { unique := false, name := "" } name with
    | (_, some e) => Except.error e
    | (c, none) => Except.ok c

/-! ### ISurface: reflecting/white flags (cards.py lines 449-467, 557-579) -/

/-- The boundary-condition flags of ISurface; each is None or a bool. -/
structure SurfFlags where
  reflecting : Option Bool
  white : Option Bool
deriving DecidableEq, Repr

/-- The ISurface.reflecting setter: it checks only that the value is
None or of boolean type, which the type Option Bool already guarantees
here, and assigns; it performs no mutual-exclusion check against white. -/
def ISurface.setReflecting (s : SurfFlags) (value : Option Bool) : SurfFlags × Option PyErr :=
  ({ s with reflecting := value }, none)

/-- The ISurface.white setter: same validation as the reflecting setter,
with no mutual-exclusion check against reflecting. -/
def ISurface.setWhite (s : SurfFlags) (value : Option Bool) : SurfFlags × Option PyErr :=
  ({ s with white := value }, none)

/-- The flag-handling part of ISurface.__init__: assign reflecting and
white through their setters, then raise ValueError if both are truthy. -/
def ISurface.initFlags (reflecting white : Option Bool) : Except PyErr SurfFlags :=
  match ISurface.setReflecting { reflecting := none, white := none } reflecting with
  | (_, some e) => Except.error e
  | (s1, none) =>
    match ISurface.setWhite s1 white with
    | (_, some e) => Except.error e
    | (s2, none) =>
      if truthy s2.reflecting && truthy s2.white then Except.error PyErr.reflectingAndWhite
      else Except.ok s2

/-! ### AxisCylinder (cards.py lines 642-782) -/

/-- State of an AxisCylinder: card name, boundary flags, the lower-cased
cartesian_axis, and the radius. -/
structure AxisCylinder where
  name : String
  reflecting : Option Bool
  white : Option Bool
  cartesian_axis : Axis
  radius : ℚ
deriving DecidableEq, Repr

/-- The AxisCylinder.radius setter: raises ValueError when the value is
not positive, before any write; otherwise assigns _radius. -/
def AxisCylinder.setRadius (c : AxisCylinder) (value : ℚ) : AxisCylinder × Option PyErr :=
  if value ≤ 0 then (c, some PyErr.radiusNotPositive)
  else ({ c with radius := value }, none)

/-- AxisCylinder.__init__: name through ICard (unique=False), flags
through ISurface, then the radius setter; the 0 placed in the radius
field stands for the not-yet-set _radius attribute and is observable
only when construction fails, where no object is produced. -/
def AxisCylinder.init (name : String) (axis : Axis) (radius : ℚ)
    (reflecting white : Option Bool) : Except PyErr AxisCylinder :=
  match ICard.init name false with
  | Except.error e => Except.error e
  | Except.ok card =>
    match ISurface.initFlags reflecting white with
    | Except.error e => Except.error e
    | Except.ok fl =>
      match AxisCylinder.setRadius
          { name := card.name, reflecting := fl.reflecting, white := fl.white,
            cartesian_axis := axis, radius := 0 } radius with
      | (_, some e) => Except.error e
      | (c, none) => Except.ok c

/-- AxisCylinder.shift (cards.py lines 685-719): sets an error flag when
any component perpendicular to the cylinder axis is non-zero and then
raises ValueError; it never writes any attribute. -/
def AxisCylinder.shift (c : AxisCylinder) (v : Vec3) : AxisCylinder × Option PyErr :=
  let iserror :=
    (c.cartesian_axis = Axis.x ∧ (v.y ≠ 0 ∨ v.z ≠ 0)) ∨
    (c.cartesian_axis = Axis.y ∧ (v.x ≠ 0 ∨ v.z ≠ 0)) ∨
    (c.cartesian_axis = Axis.z ∧ (v.x ≠ 0 ∨ v.y ≠ 0))
  if iserror then (c, some PyErr.cylinderShiftOffAxis) else (c, none)

/-- The shared per-axis body of AxisCylinder.stretch (cards.py repeats
this block verbatim for the x, y and z cases, p1 and p2 being the two
stretch components perpendicular to the cylinder axis, p1 the one with
the lower index): when p1 and p2 differ, raise ValueError; when they are
equal and p1 is non-zero, multiply the radius by p1 through the radius
setter; otherwise do nothing. -/
def AxisCylinder.stretchPerp (c : AxisCylinder) (p1 p2 : ℚ) : AxisCylinder × Option PyErr :=
  if p1 ≠ p2 then (c, some PyErr.cylinderStretchNonUniform)
  else if p1 ≠ 0 then AxisCylinder.setRadius c (c.radius * p1)
  else (c, none)

/-- AxisCylinder.stretch (cards.py lines 721-771): dispatch the shared
perpendicular-stretch block on the two components perpendicular to the
cylinder axis; the axis-aligned component is never read. -/
def AxisCylinder.stretch (c : AxisCylinder) (v : Vec3) : AxisCylinder × Option PyErr :=
  match c.cartesian_axis with
  | Axis.x => AxisCylinder.stretchPerp c v.y v.z
  | Axis.y => AxisCylinder.stretchPerp c v.x v.z
  | Axis.z => AxisCylinder.stretchPerp c v.x v.y

/-- The components of a vector perpendicular to a given axis, in the
order the source reads them (lower index first). -/
def perpComponents (a : Axis) (v : Vec3) : ℚ × ℚ :=
  match a with
  | Axis.x => (v.y, v.z)
  | Axis.y => (v.x, v.z)
  | Axis.z => (v.x, v.y)

/-! ### Parallelepiped (cards.py lines 904-1032) -/

/-- State of a Parallelepiped: card name, boundary flags, and the three
(min, max) bound pairs. -/
structure Parallelepiped where
  name : String
  reflecting : Option Bool
  white : Option Bool
  xlims : ℚ × ℚ
  ylims : ℚ × ℚ
  zlims : ℚ × ℚ
deriving DecidableEq, Repr

/-- The xlims/ylims/zlims setter of Parallelepiped for the given axis:
raises ValueError when value[0] > value[1], keeping the old pair,
otherwise assigns the new pair. -/
def Parallelepiped.setLims (ax : Axis) (old value : ℚ × ℚ) : (ℚ × ℚ) × Option PyErr :=
  if value.1 > value.2 then (old, some (PyErr.limsOutOfOrder ax))
  else (value, none)

/-- One axis of Parallelepiped.stretch (the source repeats this block
verbatim for x, y and z): a zero factor does nothing; a positive factor
multiplies both bounds in place; a negative factor multiplies the
reversed pair, swapping the bounds; either write goes through the lims
setter of that axis. -/
def Parallelepiped.stretchOneAxis (ax : Axis) (f : ℚ) (l : ℚ × ℚ) :
    (ℚ × ℚ) × Option PyErr :=
  if f ≠ 0 then
    if f > 0 then Parallelepiped.setLims ax l (l.1 * f, l.2 * f)
    else Parallelepiped.setLims ax l (f * l.2, f * l.1)
  else (l, none)

/-- Parallelepiped.stretch (cards.py lines 962-999): handle the x axis,
then y, then z; an exception on one axis propagates, leaving the later
axes untouched. -/
def Parallelepiped.stretch (p : Parallelepiped) (v : Vec3) : Parallelepiped × Option PyErr :=
  match Parallelepiped.stretchOneAxis Axis.x v.x p.xlims with
  | (xl, some e) => ({ p with xlims := xl }, some e)
  | (xl, none) =>
    match Parallelepiped.stretchOneAxis Axis.y v.y p.ylims with
    | (yl, some e) => ({ p with xlims := xl, ylims := yl }, some e)
    | (yl, none) =>
      match Parallelepiped.stretchOneAxis Axis.z v.z p.zlims with
      | (zl, e) => ({ p with xlims := xl, ylims := yl, zlims := zl }, e)

/-! ### Regions (cards.py lines 1047-1234) -/

/-- The Region tree: RegionLeaf holds a reference to a surface (modelled
as an index into a surface store) and the pos_sense flag; RegionAnd and
RegionOr hold exactly two child regions. The parent back-reference of
the source is an upward lookup only and never drives any verified
operation, so it is not part of the tree state. -/
inductive Region where
  | leaf (surface : Nat) (pos_sense : Bool)
  | regionAnd (left_child right_child : Region)
  | regionOr (left_child right_child : Region)
deriving DecidableEq, Repr

/-- Region comment (cards.py lines 1143-1146, 1174-1175, 1185-1186,
1202-1207): a leaf renders a + or - sign from pos_sense followed by the
name of its surface; RegionAnd and RegionOr render both children inside
parentheses around the midchar. The surface store is abstracted to the
names it yields. -/
def Region.comment (names : Nat → String) : Region → String
  | Region.leaf s pos_sense => (if pos_sense then "+" else "-") ++ names s
  | Region.regionAnd l r =>
      "(" ++ Region.comment names l ++ " & " ++ Region.comment names r ++ ")"
  | Region.regionOr l r =>
      "(" ++ Region.comment names l ++ " | " ++ Region.comment names r ++ ")"

/-- IRegion.walk (cards.py lines 1105-1118). The two booleans record
whether an and_func and an or_func argument were supplied (in the source
they default to None). On a leaf, leaf_func is invoked on it; the events
are the visited (surface, pos_sense) pairs in order. On an internal node
the source recurses into the left child passing only leaf_func, then
evaluates isinstance(self, and_func) whenever and_func is truthy, which
raises TypeError because and_func is a bound method and not a class, then
likewise for or_func, then recurses into the right child with only
leaf_func. -/
def Region.walk : Region → Bool → Bool → Except PyErr (List (Nat × Bool))
  | Region.leaf s p, _, _ => Except.ok [(s, p)]
  | Region.regionAnd l r, andF, orF =>
    match Region.walk l false false with
    | Except.error e => Except.error e
    | Except.ok el =>
      if andF then Except.error PyErr.isinstanceNotClass
      else if orF then Except.error PyErr.isinstanceNotClass
      else
        match Region.walk r false false with
        | Except.error e => Except.error e
        | Except.ok er => Except.ok (el ++ er)
  | Region.regionOr l r, andF, orF =>
    match Region.walk l false false with
    | Except.error e => Except.error e
    | Except.ok el =>
      if andF then Except.error PyErr.isinstanceNotClass
      else if orF then Except.error PyErr.isinstanceNotClass
      else
        match Region.walk r false false with
        | Except.error e => Except.error e
        | Except.ok er => Except.ok (el ++ er)

/-- A store of surfaces referenced by region leaves; the verified
properties only ever place AxisCylinder surfaces in it. -/
abbrev SurfEnv : Type := Nat → AxisCylinder

/-- IRegion.shift (cards.py lines 1093-1097): the body holds only a
docstring and the comment "TODO walk."; the method runs no code, so no
surface in the store is touched. -/
def IRegion.shift (env : SurfEnv) (_region : Region) (_v : Vec3) : SurfEnv := env

/-- IRegion.stretch (cards.py lines 1099-1103): the body holds only a
docstring and the comment "TODO walk."; the method runs no code, so no
surface in the store is touched. -/
def IRegion.stretch (env : SurfEnv) (_region : Region) (_v : Vec3) : SurfEnv := env

/-! ### Cell (cards.py lines 90-197) -/

/-- State of a Cell: the card name, the region, and the material name,
density and density_units attributes, each None until its setter has run
during construction. -/
structure CellState where
  name : String
  region : Region
  material_name : Option String
  density : Option ℚ
  density_units : Option String
deriving DecidableEq, Repr

/-- The Cell.material setter: raises ValueError when the name of the
material is empty, otherwise stores the material (of which only the name
matters here). -/
def Cell.setMaterial (c : CellState) (matName : String) : CellState × Option PyErr :=
  if matName = "" then (c, some PyErr.materialNameEmpty)
  else ({ c with material_name := some matName }, none)

/-- The Cell.density_units setter (cards.py lines 191-197): its guard
compares the name density_units, which is not bound inside the setter
body (the parameter is called value), against the two allowed unit
strings; evaluating that unbound name raises NameError on every call,
before any comparison or write. -/
def Cell.setDensityUnits (c : CellState) (_value : String) : CellState × Option PyErr :=
  (c, some PyErr.densityUnitsUnboundName)

/-- Cell.__init__ (cards.py lines 132-160): name and region through
CellVoid and ICard (unique=False), then the material, density and
density_units setters in that order. -/
def Cell.init (name : String) (region : Region) (matName : String)
    (density : ℚ) (density_units : String) : Except PyErr CellState :=
  match ICard.init name false with
  | Except.error e => Except.error e
  | Except.ok card =>
    let c0 : CellState :=
      { name := card.name, region := region,
        material_name := none, density := none, density_units := none }
    match Cell.setMaterial c0 matName with
    | (_, some e) => Except.error e
    | (c1, none) =>
      let c2 : CellState := { c1 with density := some density }
      match Cell.setDensityUnits c2 density_units with
      | (_, some e) => Except.error e
      | (c3, none) => Except.ok c3

/-! ### Concrete fixtures used by the closed theorems and witnesses -/

/-- The cylinder of the end-to-end example of the spec: name "c",
aligned with the z axis, radius 1. -/
def cylC : AxisCylinder :=
  { name := "c", reflecting := none, white := none,
    cartesian_axis := Axis.z, radius := 1 }

/-- A surface store holding cylC at every index; only index 0 is ever
referenced. -/
def envC : SurfEnv := fun _ => cylC

/-- The region c.neg of the end-to-end example: the neg selector of
ISurface returns RegionLeaf(self, False). -/
def regionC : Region := Region.leaf 0 false

/-- Leaf region over surface index 0 with positive sense. -/
def leafA : Region := Region.leaf 0 true

/-- Leaf region over surface index 1 with positive sense. -/
def leafB : Region := Region.leaf 1 true

/-- Leaf region over surface index 2 with positive sense. -/
def leafC : Region := Region.leaf 2 true

/-- A concrete parallelepiped with valid bounds, from the docstring
example of Parallelepiped.stretch. -/
def ppBox : Parallelepiped :=
  { name := "mypp", reflecting := some false, white := some false,
    xlims := (0, 4), ylims := (-2, 2), zlims := (-3, 6) }

/-- The per-axis stretch transform in the words of the claim (the
spec-side definition of the refinement comparison): a positive factor
multiplies both bounds, a negative factor multiplies both bounds and
swaps them, a zero factor leaves the pair unchanged. -/
def stretchLimsSpec (f : ℚ) (l : ℚ × ℚ) : ℚ × ℚ :=
  if 0 < f then (f * l.1, f * l.2)
  else if f < 0 then (f * l.2, f * l.1)
  else l

/-! ### Helper lemmas -/

/-- Case analysis of the shared perpendicular-stretch block of
AxisCylinder.stretch, for a cylinder whose radius is positive. -/
theorem stretchPerp_spec (c : AxisCylinder) (p1 p2 : ℚ) (hr : 0 < c.radius) :
    (p1 ≠ p2 → AxisCylinder.stretchPerp c p1 p2 = (c, some PyErr.cylinderStretchNonUniform))
    ∧ (p1 = p2 → p1 = 0 → AxisCylinder.stretchPerp c p1 p2 = (c, none))
    ∧ (p1 = p2 → 0 < p1 →
        AxisCylinder.stretchPerp c p1 p2 = ({ c with radius := c.radius * p1 }, none))
    ∧ (p1 = p2 → p1 < 0 →
        AxisCylinder.stretchPerp c p1 p2 = (c, some PyErr.radiusNotPositive)) := by
  unfold AxisCylinder.stretchPerp AxisCylinder.setRadius
  refine ⟨fun h => by simp [h], ?_, ?_, ?_⟩
  · intro he h0
    subst he
    subst h0
    simp
  · intro he hp
    subst he
    have hne : p1 ≠ 0 := ne_of_gt hp
    have hpos : ¬ c.radius * p1 ≤ 0 := not_le.mpr (mul_pos hr hp)
    simp [hne, hpos]
  · intro he hn
    subst he
    have hne : p1 ≠ 0 := ne_of_lt hn
    have hneg : c.radius * p1 ≤ 0 := le_of_lt (mul_neg_of_pos_of_neg hr hn)
    simp [hne, hneg]

/-- One axis of Parallelepiped.stretch agrees with the per-axis spec
transform and preserves the bound order, whenever the incoming bounds
are ordered. -/
theorem stretchOneAxis_spec (ax : Axis) (f : ℚ) (l : ℚ × ℚ) (hl : l.1 ≤ l.2) :
    Parallelepiped.stretchOneAxis ax f l = (stretchLimsSpec f l, none)
    ∧ (stretchLimsSpec f l).1 ≤ (stretchLimsSpec f l).2 := by
  unfold Parallelepiped.stretchOneAxis Parallelepiped.setLims stretchLimsSpec
  rcases lt_trichotomy f 0 with hf | hf | hf
  · have hne : f ≠ 0 := ne_of_lt hf
    have hnp : ¬ f > 0 := not_lt.mpr (le_of_lt hf)
    have hord : f * l.2 ≤ f * l.1 := mul_le_mul_of_nonpos_left hl (le_of_lt hf)
    simp [hne, hnp, hf, not_lt.mpr hord, hord]
  · simp [hf, hl]
  · have hne : f ≠ 0 := ne_of_gt hf
    have hord : l.1 * f ≤ l.2 * f := mul_le_mul_of_nonneg_right hl (le_of_lt hf)
    have hord2 : f * l.1 ≤ f * l.2 := mul_le_mul_of_nonneg_left hl (le_of_lt hf)
    simp [hne, hf, not_lt.mpr hord, hord2, mul_comm, hl]

/-! ### Claim theorems -/

/-- C1: IRegion.stretch is an empty TODO stub, so stretching the region
c.neg of a z-axis cylinder of radius 1 by (2, 2, 0) leaves the stored
cylinder untouched with radius 1, although AxisCylinder.stretch applied
directly to the cylinder would set the radius to 2; the comment text of
the region is the unchanged "-c" either way. This exhibits the failing
input of the claim that region-level transforms recurse to every leaf. -/
theorem c1_region_stretch_stub_mutates_nothing :
    IRegion.stretch envC regionC ⟨2, 2, 0⟩ 0 = cylC
    ∧ (IRegion.stretch envC regionC ⟨2, 2, 0⟩ 0).radius = 1
    ∧ AxisCylinder.stretch cylC ⟨2, 2, 0⟩ = ({ cylC with radius := 2 }, none)
    ∧ Region.comment (fun i => (IRegion.stretch envC regionC ⟨2, 2, 0⟩ i).name) regionC
        = "-c" := by
  refine ⟨rfl, rfl, ?_, rfl⟩
  norm_num [cylC, AxisCylinder.stretch, AxisCylinder.stretchPerp, AxisCylinder.setRadius]

/-- C2: walk with only the leaf visitor performs the in-order leaf
traversal, visiting exactly the three leaves of both (a & b) & c and
a & (b & c) in left-to-right order; but supplying an and-visitor or an
or-visitor makes walk raise TypeError at the first internal node,
because the source evaluates isinstance(self, and_func) on the bound
method and never forwards the combinator visitors into the recursive
calls. This exhibits the failing input of the claim that the matching
combinator visitor is invoked on internal nodes. -/
theorem c2_walk_inorder_leaves_but_visitor_crash :
    Region.walk (Region.regionAnd (Region.regionAnd leafA leafB) leafC) false false
      = Except.ok [(0, true), (1, true), (2, true)]
    ∧ Region.walk (Region.regionAnd leafA (Region.regionAnd leafB leafC)) false false
      = Except.ok [(0, true), (1, true), (2, true)]
    ∧ Region.walk (Region.regionAnd (Region.regionAnd leafA leafB) leafC) true false
      = Except.error PyErr.isinstanceNotClass
    ∧ Region.walk (Region.regionOr leafA (Region.regionOr leafB leafC)) false true
      = Except.error PyErr.isinstanceNotClass := by
  refine ⟨rfl, rfl, rfl, rfl⟩

/-- C6: comment renders a leaf as the sense sign followed by the surface
name, and each boolean node as the fully parenthesized combination of
its two children with the midchar of its combinator. -/
theorem c6_comment_rendering (names : Nat → String) (s : Nat) (l r : Region) :
    Region.comment names (Region.leaf s true) = "+" ++ names s
    ∧ Region.comment names (Region.leaf s false) = "-" ++ names s
    ∧ Region.comment names (Region.regionAnd l r)
        = "(" ++ Region.comment names l ++ " & " ++ Region.comment names r ++ ")"
    ∧ Region.comment names (Region.regionOr l r)
        = "(" ++ Region.comment names l ++ " | " ++ Region.comment names r ++ ")" :=
  ⟨rfl, rfl, rfl, rfl⟩

/-- C9: constructing a Cell always fails, for the two allowed unit tags
just as for any other string, because the density_units setter evaluates
the unbound name density_units and so raises NameError before comparing
anything; no Cell is ever produced with a material. -/
theorem c9_cell_init_density_units_name_error :
    Cell.init "cellA" regionC "mat" 1 "g/cm^3" = Except.error PyErr.densityUnitsUnboundName
    ∧ Cell.init "cellA" regionC "mat" 1 "atoms/b/cm"
        = Except.error PyErr.densityUnitsUnboundName
    ∧ Cell.init "cellA" regionC "mat" 1 "furlongs"
        = Except.error PyErr.densityUnitsUnboundName :=
  ⟨rfl, rfl, rfl⟩

/-- C10: constructing a card with unique=True stores the name directly,
bypassing the empty-name validation, so the empty name is accepted for a
unique card while the same empty name fails non-unique construction. -/
theorem c10_unique_init_bypasses_empty_name_check :
    ICard.init "" true = Except.ok { unique := true, name := "" }
    ∧ ICard.init "" false = Except.error PyErr.nameEmpty :=
  ⟨rfl, rfl⟩

/-- C3 counterexample: stretching a z-axis cylinder of radius 1 by the
equal non-zero perpendicular factors (-1, -1) does not multiply the
radius by -1 as the claim states; the radius setter rejects the product
and the call raises ValueError, leaving the radius at 1. -/
theorem c3_counterexample_negative_factor_rejected :
    AxisCylinder.stretch cylC ⟨-1, -1, 0⟩ = (cylC, some PyErr.radiusNotPositive)
    ∧ AxisCylinder.stretch cylC ⟨-1, -1, 0⟩ ≠ ({ cylC with radius := -1 }, none) := by
  constructor
  · norm_num [cylC, AxisCylinder.stretch, AxisCylinder.stretchPerp, AxisCylinder.setRadius]
  · norm_num [cylC, AxisCylinder.stretch, AxisCylinder.stretchPerp, AxisCylinder.setRadius]

/-- C3 amended: for every cylinder with positive radius and every
stretch vector, writing (p1, p2) for the two components perpendicular to
the cylinder axis: unequal perpendicular components fail with the
GeometryError of stretch and change nothing; equal zero components are a
silent no-op; equal positive components multiply the radius by the
factor; equal negative components fail with the ValueError of the radius
setter (the radius must stay positive) and change nothing; the
axis-aligned component never has any effect, the outcome depending only
on (p1, p2). -/
theorem c3_amended_cylinder_stretch (c : AxisCylinder) (v : Vec3) (hr : 0 < c.radius) :
    ((perpComponents c.cartesian_axis v).1 ≠ (perpComponents c.cartesian_axis v).2 →
        AxisCylinder.stretch c v = (c, some PyErr.cylinderStretchNonUniform))
    ∧ ((perpComponents c.cartesian_axis v).1 = (perpComponents c.cartesian_axis v).2 →
        (perpComponents c.cartesian_axis v).1 = 0 →
        AxisCylinder.stretch c v = (c, none))
    ∧ ((perpComponents c.cartesian_axis v).1 = (perpComponents c.cartesian_axis v).2 →
        0 < (perpComponents c.cartesian_axis v).1 →
        AxisCylinder.stretch c v
          = ({ c with radius := c.radius * (perpComponents c.cartesian_axis v).1 }, none))
    ∧ ((perpComponents c.cartesian_axis v).1 = (perpComponents c.cartesian_axis v).2 →
        (perpComponents c.cartesian_axis v).1 < 0 →
        AxisCylinder.stretch c v = (c, some PyErr.radiusNotPositive)) := by
  have hs : AxisCylinder.stretch c v
      = AxisCylinder.stretchPerp c (perpComponents c.cartesian_axis v).1
          (perpComponents c.cartesian_axis v).2 := by
    unfold AxisCylinder.stretch perpComponents
    cases c.cartesian_axis <;> rfl
  rw [hs]
  exact stretchPerp_spec c _ _ hr

/-- C3 witness: the amended theorem applied to the z-axis cylinder of
radius 1 and the stretch vector (2, 2, 7): the radius becomes 2. -/
theorem c3_amended_witness :
    AxisCylinder.stretch cylC ⟨2, 2, 7⟩ = ({ cylC with radius := 2 }, none) := by
  have h := (c3_amended_cylinder_stretch cylC ⟨2, 2, 7⟩ (by norm_num [cylC])).2.2.1
    (by norm_num [cylC, perpComponents]) (by norm_num [cylC, perpComponents])
  rw [h]
  norm_num [cylC, perpComponents]

/-- C4: AxisCylinder.shift raises exactly when a component perpendicular
to the cylinder axis is non-zero, and in every case, success or failure,
the state of the cylinder after the call is the state before it, so
radius and cartesian_axis are unchanged. -/
theorem c4_cylinder_shift (c : AxisCylinder) (v : Vec3) :
    ((AxisCylinder.shift c v).2 = some PyErr.cylinderShiftOffAxis
      ↔ (perpComponents c.cartesian_axis v).1 ≠ 0
        ∨ (perpComponents c.cartesian_axis v).2 ≠ 0)
    ∧ (AxisCylinder.shift c v).1 = c
    ∧ (AxisCylinder.shift c v).1.radius = c.radius
    ∧ (AxisCylinder.shift c v).1.cartesian_axis = c.cartesian_axis := by
  have h1 : (AxisCylinder.shift c v).1 = c := by
    simp only [AxisCylinder.shift]
    split <;> rfl
  refine ⟨?_, h1, by rw [h1], by rw [h1]⟩
  simp only [AxisCylinder.shift, perpComponents]
  cases hax : c.cartesian_axis <;> simp_all <;> split <;> simp_all

/-- C5: for every parallelepiped with ordered bounds on each axis and
every stretch vector, stretch succeeds and each axis is transformed
independently exactly as the claim words it (positive factor scales both
bounds, negative factor scales and swaps them, zero factor is a no-op),
and the min-bound stays at most the max-bound on every axis. -/
theorem c5_parallelepiped_stretch (p : Parallelepiped) (v : Vec3)
    (hx : p.xlims.1 ≤ p.xlims.2) (hy : p.ylims.1 ≤ p.ylims.2)
    (hz : p.zlims.1 ≤ p.zlims.2) :
    Parallelepiped.stretch p v
      = ({ p with xlims := stretchLimsSpec v.x p.xlims,
                  ylims := stretchLimsSpec v.y p.ylims,
                  zlims := stretchLimsSpec v.z p.zlims }, none)
    ∧ (stretchLimsSpec v.x p.xlims).1 ≤ (stretchLimsSpec v.x p.xlims).2
    ∧ (stretchLimsSpec v.y p.ylims).1 ≤ (stretchLimsSpec v.y p.ylims).2
    ∧ (stretchLimsSpec v.z p.zlims).1 ≤ (stretchLimsSpec v.z p.zlims).2 := by
  obtain ⟨ex, ox⟩ := stretchOneAxis_spec Axis.x v.x p.xlims hx
  obtain ⟨ey, oy⟩ := stretchOneAxis_spec Axis.y v.y p.ylims hy
  obtain ⟨ez, oz⟩ := stretchOneAxis_spec Axis.z v.z p.zlims hz
  refine ⟨?_, ox, oy, oz⟩
  unfold Parallelepiped.stretch
  rw [ex, ey, ez]

/-- C5 witness: the theorem applied to the box [0,4] x [-2,2] x [-3,6]
and the stretch vector (2, 0, -1): x scales to [0,8], y is untouched,
z reflects to [-6,3]. -/
theorem c5_witness :
    Parallelepiped.stretch ppBox ⟨2, 0, -1⟩
      = ({ ppBox with xlims := (0, 8), ylims := (-2, 2), zlims := (-6, 3) }, none) := by
  have h := (c5_parallelepiped_stretch ppBox ⟨2, 0, -1⟩
    (by norm_num [ppBox]) (by norm_num [ppBox]) (by norm_num [ppBox])).1
  rw [h]
  norm_num [ppBox, stretchLimsSpec]

/-- C7: renaming a card constructed as unique always raises
StandardError (the ImmutabilityError of the taxonomy) and leaves the
name unchanged; assigning the empty string on a non-unique card raises
ValueError (the NamingError); assigning a non-empty name on a non-unique
card succeeds and the name property immediately returns the new value;
and unique construction indeed yields a card whose unique flag is set
and whose name is the given one. -/
theorem c7_name_contract (c : ICardState) (name0 value : String) :
    (ICard.init name0 true = Except.ok { unique := true, name := name0 })
    ∧ (c.unique = true → ICard.setName c value = (c, some PyErr.uniqueNameReadOnly))
    ∧ (c.unique = false → ICard.setName c "" = (c, some PyErr.nameEmpty))
    ∧ (c.unique = false → value ≠ "" →
        ICard.setName c value = ({ c with name := value }, none)
        ∧ (ICard.setName c value).1.name = value) := by
  refine ⟨rfl, ?_, ?_, ?_⟩
  · intro hu
    unfold ICard.setName
    simp [hu]
  · intro hu
    unfold ICard.setName
    simp [hu]
  · intro hu hv
    unfold ICard.setName
    simp [hu, hv]

/-- C7 witness: the theorem applied at concrete cards: a unique card
named u rejects the rename to v; a non-unique card named a rejects the
empty rename; renaming it to b succeeds and is visible. -/
theorem c7_name_contract_witness :
    ICard.setName { unique := true, name := "u" } "v"
      = ({ unique := true, name := "u" }, some PyErr.uniqueNameReadOnly)
    ∧ ICard.setName { unique := false, name := "a" } ""
      = ({ unique := false, name := "a" }, some PyErr.nameEmpty)
    ∧ ICard.setName { unique := false, name := "a" } "b"
      = ({ unique := false, name := "b" }, none) :=
  ⟨(c7_name_contract { unique := true, name := "u" } "n" "v").2.1 rfl,
   (c7_name_contract { unique := false, name := "a" } "n" "v").2.2.1 rfl,
   ((c7_name_contract { unique := false, name := "a" } "n" "b").2.2.2 rfl
     (by decide)).1⟩

/-- C8 counterexample: a surface constructed with white=True and
reflecting=None is accepted, and then setting reflecting=True through
the property setter succeeds with no exception, leaving both flags True;
the claim that the setter path also fails with ConfigurationError is
false on the code. -/
theorem c8_counterexample_setter_allows_both_flags :
    ISurface.initFlags none (some true)
      = Except.ok { reflecting := none, white := some true }
    ∧ ISurface.setReflecting { reflecting := none, white := some true } (some true)
      = ({ reflecting := some true, white := some true }, none)
    ∧ ISurface.setWhite { reflecting := some true, white := none } (some true)
      = ({ reflecting := some true, white := some true }, none) :=
  ⟨rfl, rfl, rfl⟩

/-- C8 amended: passing both flags truthy at construction fails with the
ValueError of ISurface (the ConfigurationError of the taxonomy), and
construction fails exactly then; but the reflecting and white property
setters validate only the type of the value and perform no
mutual-exclusion check, so they always succeed, even when the assignment
leaves both flags set. -/
theorem c8_amended_flag_exclusion_only_at_init (r w : Option Bool) (s : SurfFlags)
    (value : Option Bool) :
    (ISurface.initFlags r w = Except.error PyErr.reflectingAndWhite
      ↔ truthy r = true ∧ truthy w = true)
    ∧ (truthy r = false ∨ truthy w = false →
        ISurface.initFlags r w = Except.ok { reflecting := r, white := w })
    ∧ ISurface.setReflecting s value = ({ s with reflecting := value }, none)
    ∧ ISurface.setWhite s value = ({ s with white := value }, none) := by
  refine ⟨?_, ?_, rfl, rfl⟩
  · unfold ISurface.initFlags ISurface.setReflecting ISurface.setWhite
    by_cases hrw : truthy r = true ∧ truthy w = true
    · simp [hrw.1, hrw.2]
    · rcases not_and_or.mp hrw with h | h <;>
        simp [Bool.not_eq_true] at h <;> simp [h]
  · intro h
    unfold ISurface.initFlags ISurface.setReflecting ISurface.setWhite
    rcases h with h | h <;> simp [h]

/-- C8 witness: the amended theorem applied at concrete flags: both
truthy at construction is rejected, white alone is accepted, and the
reflecting setter then sets the second flag without complaint. -/
theorem c8_amended_witness :
    ISurface.initFlags (some true) (some true) = Except.error PyErr.reflectingAndWhite
    ∧ ISurface.initFlags none (some true)
      = Except.ok { reflecting := none, white := some true }
    ∧ ISurface.setReflecting { reflecting := none, white := some true } (some true)
      = ({ reflecting := some true, white := some true }, none) :=
  ⟨(c8_amended_flag_exclusion_only_at_init (some true) (some true)
      { reflecting := none, white := none } none).1.mpr ⟨rfl, rfl⟩,
   (c8_amended_flag_exclusion_only_at_init none (some true)
      { reflecting := none, white := none } none).2.1 (Or.inl rfl),
   (c8_amended_flag_exclusion_only_at_init none (some true)
      { reflecting := none, white := some true } (some true)).2.2.1⟩

end PyneCards
